import Mathlib

/-!
Verification of the pixora backend's request-to-artifact pipeline.

The JavaScript source is shallowly embedded: the Mongo-backed collections
become Lean lists kept in insertion order (`insertOne` appends, `find`
filters, preserving order), controller handlers become pure functions from
a database state plus request inputs to a response/new-state pair, and the
external Gemini provider call is abstracted by a `ProviderOutcome`
parameter (the provider either resolves with some text or throws with a
message; a missing API key is one of the thrown messages).
-/

namespace Pixora

/-- Is the needle a contiguous substring of the haystack, character lists;
faithful to the semantics of JavaScript `String.prototype.includes`. -/
def includesSub (needle : List Char) : List Char → Bool
  | [] => needle.isEmpty
  | c :: t => needle.isPrefixOf (c :: t) || includesSub needle t

/-- JavaScript `haystack.includes(needle)` on Lean strings. -/
def strIncludes (haystack needle : String) : Bool :=
  includesSub needle.data haystack.data

/-- JavaScript truthiness test `!x` for a string-valued field that may be
absent (`none`) or present; the empty string is falsy. -/
def jsFalsy : Option String → Bool
  | none => true
  | some s => s.isEmpty

/-- The `errorType` tags produced by `imageGenerationService.js` in its
catch branches. -/
inductive ErrorType where
  | QUOTA_EXCEEDED
  | MODEL_NOT_FOUND
  | UNKNOWN_ERROR
deriving DecidableEq, Repr

/-- Outcome of the provider interaction inside the service's try block:
the Gemini call resolves with response text, or something throws with an
error message (quota errors, model errors, missing GEMINI_API_KEY, ...). -/
inductive ProviderOutcome where
  | ok (text : String)
  | err (msg : String)
deriving DecidableEq, Repr

/-- Result value returned by the image generation service methods: on
success, `images[0].inlineData` carries `data` and `mimeType`; on failure
an error message and an `errorType` tag. -/
inductive GenResult where
  | success (data : String) (mimeType : String)
  | failure (error : String) (errorType : ErrorType)
deriving DecidableEq, Repr

/-- Projection: the `errorType` field of a failure result. -/
def GenResult.errType : GenResult → Option ErrorType
  | .success _ _ => none
  | .failure _ t => some t

/-- Projection: is the result a success. -/
def GenResult.isSuccess : GenResult → Bool
  | .success _ _ => true
  | .failure _ _ => false

/-- ImageGenerationService.generateImage from
src/services/imageGenerationService.js, lines 20-101: on a successful
provider call it returns the unmodified reference image back as
`images[0].inlineData.data`; on a thrown error it classifies the message
by the 429/quota, then 404/"not found" substring checks. -/
def ImageGenerationService.generateImage
    (prompt referenceImageBase64 mimeType : String)
    (outcome : ProviderOutcome) : GenResult :=
  match outcome with
  | .ok _ => .success referenceImageBase64 mimeType
  | .err m =>
    if strIncludes m "429" || strIncludes m "quota" then
      .failure ("Quota exceeded: " ++ m ++
        ". Please check your billing and quota limits.") .QUOTA_EXCEEDED
    else if strIncludes m "404" || strIncludes m "not found" then
      .failure ("Model not found: " ++ m) .MODEL_NOT_FOUND
    else
      .failure ("Image generation failed: " ++ m) .UNKNOWN_ERROR

/-- ImageGenerationService.generateImageFromText from
src/services/imageGenerationService.js, lines 108-178: on a successful
provider call it returns the placeholder string
"text-generated-description" with mimeType "text/plain"; failures are
classified exactly as in generateImage, with a different Unknown prefix. -/
def ImageGenerationService.generateImageFromText
    (prompt : String) (outcome : ProviderOutcome) : GenResult :=
  match outcome with
  | .ok _ => .success "text-generated-description" "text/plain"
  | .err m =>
    if strIncludes m "429" || strIncludes m "quota" then
      .failure ("Quota exceeded: " ++ m ++
        ". Please check your billing and quota limits.") .QUOTA_EXCEEDED
    else if strIncludes m "404" || strIncludes m "not found" then
      .failure ("Model not found: " ++ m) .MODEL_NOT_FOUND
    else
      .failure ("Text-to-image generation failed: " ++ m) .UNKNOWN_ERROR

/-- A document of the `images` collection, as written by uploadImage in
src/controllers (fields of the stored object; dates are kept as opaque
strings). -/
structure PromptRecord where
  _id : String
  promptId : String
  promptName : String
  prompt : String
  base64Image : String
  originalName : String
  size : Nat
  mimetype : String
  createdAt : String
deriving DecidableEq, Repr

/-- A document of the `generated_images` collection, as written by the
generate controllers in src/unnamed/part_000 (promptId is null for
text-only generation). -/
structure GeneratedArtifact where
  _id : String
  promptId : Option String
  promptName : String
  prompt : String
  base64Image : String
  originalName : String
  size : Nat
  mimetype : String
  createdAt : String
  type : String
deriving DecidableEq, Repr

/-- The two logical collections of the document store, in insertion order
(`writeDB` is insertOne, which appends; `readDB` is find, which filters
preserving that order). -/
structure DBState where
  images : List PromptRecord
  generated_images : List GeneratedArtifact
deriving DecidableEq, Repr

/-- The observable parts of a generation endpoint's JSON response:
HTTP status, the `success` flag, the human `message`, the optional
`error` field of the body, and the `data.base64Image` field when present. -/
structure GenResponse where
  status : Nat
  success : Bool
  message : String
  errorField : Option String
  base64Image : Option String
deriving DecidableEq, Repr

/-- A controller run: the response sent, whether the image generation
service was invoked, and the database state afterwards. -/
structure GenOutcome where
  response : GenResponse
  gatewayCalled : Bool
  newState : DBState
deriving DecidableEq, Repr

/-- generateImage controller (POST /api/gemini/generate) from
src/unnamed/part_000, lines 10-149. `promptId` and `referenceImage` are
the request-body fields after the JSON/form-data extraction (absent
fields are `none`); `freshId` is the uuidv4 value and `createdAt` the
timestamp drawn inside the handler; `outcome` abstracts the provider
interaction of the service call. -/
def generateImage (st : DBState) (promptId referenceImage : Option String)
    (mimeType : String) (freshId createdAt : String)
    (outcome : ProviderOutcome) : GenOutcome :=
  if jsFalsy promptId then
    { response :=
        { status := 400, success := false,
          message := "promptId is required", errorField := none,
          base64Image := none },
      gatewayCalled := false, newState := st }
  else if jsFalsy referenceImage then
    { response :=
        { status := 400, success := false,
          message := "referenceImage is required", errorField := none,
          base64Image := none },
      gatewayCalled := false, newState := st }
  else
    let pid := promptId.getD ""
    let refImg := referenceImage.getD ""
    let existingImages := st.images.filter (fun r => r.promptId == pid)
    match existingImages with
    | [] =>
      { response :=
          { status := 404, success := false,
            message := "No prompt found with the provided promptId",
            errorField := none, base64Image := none },
        gatewayCalled := false, newState := st }
    | promptData :: _ =>
      let promptText := promptData.prompt
      let promptName := promptData.promptName
      match ImageGenerationService.generateImage promptText refImg mimeType
          outcome with
      | .failure errMsg _ =>
        { response :=
            { status := 500, success := false,
              message := "Image generation failed",
              errorField := some errMsg, base64Image := none },
          gatewayCalled := true, newState := st }
      | .success data _ =>
        let imageData : GeneratedArtifact :=
          { _id := freshId, promptId := some pid, promptName := promptName,
            prompt := promptText, base64Image := data,
            originalName := "ai-generated-image.jpg", size := data.length,
            mimetype := "image/jpeg", createdAt := createdAt,
            type := "generated" }
        { response :=
            { status := 200, success := true,
              message := "Image generated successfully", errorField := none,
              base64Image := some imageData.base64Image },
          gatewayCalled := true,
          newState := { st with
            generated_images := st.generated_images ++ [imageData] } }

/-- generateImageFromText controller (POST /api/gemini/generate-text)
from src/unnamed/part_000, lines 156-217. -/
def generateImageFromText (st : DBState) (prompt : Option String)
    (freshId createdAt : String) (outcome : ProviderOutcome) : GenOutcome :=
  if jsFalsy prompt then
    { response :=
        { status := 400, success := false,
          message := "prompt is required", errorField := none,
          base64Image := none },
      gatewayCalled := false, newState := st }
  else
    let p := prompt.getD ""
    match ImageGenerationService.generateImageFromText p outcome with
    | .failure errMsg _ =>
      { response :=
          { status := 500, success := false,
            message := "Image generation failed",
            errorField := some errMsg, base64Image := none },
        gatewayCalled := true, newState := st }
    | .success data _ =>
      let imageData : GeneratedArtifact :=
        { _id := freshId, promptId := none, promptName := "Text Prompt",
          prompt := p, base64Image := data,
          originalName := "ai-text-generated-image.jpg",
          size := data.length, mimetype := "image/jpeg",
          createdAt := createdAt, type := "generated" }
      { response :=
          { status := 200, success := true,
            message := "Image generated successfully from text",
            errorField := none, base64Image := some imageData.base64Image },
        gatewayCalled := true,
        newState := { st with
          generated_images := st.generated_images ++ [imageData] } }

/-- One entry of the getPrompts response. -/
structure PromptSummary where
  id : String
  promptName : String
  prompt : String
  createdAt : String
deriving DecidableEq, Repr

/-- Accumulating loop of getPrompts: the forEach over the images with the
`seenPrompts` set (modelled as the list of ids already seen) and the
`uniquePrompts` accumulator; a record is pushed when its promptId is
truthy (nonempty) and unseen. From src/unnamed/part_000, lines 258-271. -/
def getPromptsLoop : List PromptRecord → List String → List PromptSummary
  | [], _ => []
  | img :: rest, seen =>
    if !img.promptId.isEmpty && !(seen.contains img.promptId) then
      { id := img.promptId, promptName := img.promptName,
        prompt := img.prompt, createdAt := img.createdAt } ::
        getPromptsLoop rest (img.promptId :: seen)
    else
      getPromptsLoop rest seen

/-- getPrompts controller (GET /api/gemini/prompts) from
src/unnamed/part_000, lines 252-286: reads every record of `images` and
deduplicates by promptId. -/
def getPrompts (st : DBState) : List PromptSummary :=
  getPromptsLoop st.images []

/-- The multer file attached to an upload request, after disk buffering:
its bytes base64-encoded, original name, size and mimetype. -/
structure FileUpload where
  base64ImageData : String
  originalname : String
  size : Nat
  mimetype : String
deriving DecidableEq, Repr

/-- A run of the upload controller: the HTTP status, the record inserted
into `images` when the upload succeeded, and the database state
afterwards. -/
structure UploadOutcome where
  status : Nat
  inserted : Option PromptRecord
  newState : DBState
deriving DecidableEq, Repr

/-- uploadImage controller (POST /api/images/upload) from
src/controllers, lines 52-162: validates promptId/promptName/prompt,
takes the image either from the multer file (wrapped into a data URL) or
from the base64 `aiImage` body field, and inserts a record into
`images`. `freshId` is the uuidv4 value and `now` the timestamp drawn in
the handler. -/
def uploadImage (st : DBState)
    (promptId promptName prompt aiImage : Option String)
    (file : Option FileUpload) (freshId now : String) : UploadOutcome :=
  if jsFalsy promptId || jsFalsy promptName || jsFalsy prompt then
    { status := 400, inserted := none, newState := st }
  else
    match file with
    | some f =>
      let imageData : PromptRecord :=
        { _id := freshId, promptId := promptId.getD "",
          promptName := promptName.getD "", prompt := prompt.getD "",
          base64Image := "data:" ++ f.mimetype ++ ";base64," ++
            f.base64ImageData,
          originalName := f.originalname, size := f.size,
          mimetype := f.mimetype, createdAt := now }
      { status := 201, inserted := some imageData,
        newState := { st with images := st.images ++ [imageData] } }
    | none =>
      if jsFalsy aiImage then
        { status := 400, inserted := none, newState := st }
      else
        let imageData : PromptRecord :=
          { _id := freshId, promptId := promptId.getD "",
            promptName := promptName.getD "", prompt := prompt.getD "",
            base64Image := aiImage.getD "",
            originalName := "uploaded-image", size := 0,
            mimetype := "image/jpeg", createdAt := now }
        { status := 201, inserted := some imageData,
          newState := { st with images := st.images ++ [imageData] } }

/-- getImageById controller (GET /api/images/:id) from src/controllers,
lines 189-227: finds the records whose _id matches and returns the first
one (404, modelled as `none`, when there is none); the returned data
includes the stored base64Image verbatim. -/
def getImageById (st : DBState) (id : String) : Option PromptRecord :=
  (st.images.filter (fun r => r._id == id)).head?

/-- C4: a gateway failure whose message contains "429" or "quota"
classifies as QUOTA_EXCEEDED (never UNKNOWN_ERROR); one containing "404"
or "not found" and neither "429" nor "quota" classifies as
MODEL_NOT_FOUND; every other message classifies as UNKNOWN_ERROR — in
both generateImage and generateImageFromText of the image generation
service. -/
theorem C4_failure_classification (p r mt m : String) :
    ((strIncludes m "429" = true ∨ strIncludes m "quota" = true) →
      (ImageGenerationService.generateImage p r mt (.err m)).errType =
          some .QUOTA_EXCEEDED ∧
      (ImageGenerationService.generateImageFromText p (.err m)).errType =
          some .QUOTA_EXCEEDED) ∧
    ((strIncludes m "429" = false ∧ strIncludes m "quota" = false ∧
      (strIncludes m "404" = true ∨ strIncludes m "not found" = true)) →
      (ImageGenerationService.generateImage p r mt (.err m)).errType =
          some .MODEL_NOT_FOUND ∧
      (ImageGenerationService.generateImageFromText p (.err m)).errType =
          some .MODEL_NOT_FOUND) ∧
    ((strIncludes m "429" = false ∧ strIncludes m "quota" = false ∧
      strIncludes m "404" = false ∧ strIncludes m "not found" = false) →
      (ImageGenerationService.generateImage p r mt (.err m)).errType =
          some .UNKNOWN_ERROR ∧
      (ImageGenerationService.generateImageFromText p (.err m)).errType =
          some .UNKNOWN_ERROR) := by
  refine ⟨?_, ?_, ?_⟩
  · rintro (h | h) <;>
      simp [ImageGenerationService.generateImage,
        ImageGenerationService.generateImageFromText, GenResult.errType, h]
  · rintro ⟨h1, h2, h3 | h3⟩ <;>
      simp [ImageGenerationService.generateImage,
        ImageGenerationService.generateImageFromText, GenResult.errType,
        h1, h2, h3]
  · rintro ⟨h1, h2, h3, h4⟩
    simp [ImageGenerationService.generateImage,
      ImageGenerationService.generateImageFromText, GenResult.errType,
      h1, h2, h3, h4]

/-- Witness for C4: concrete messages of each class, classified through
the theorem. -/
theorem C4_failure_classification_witness :
    (ImageGenerationService.generateImage "p" "img" "image/jpeg"
        (.err "You exceeded your current quota")).errType =
      some .QUOTA_EXCEEDED ∧
    (ImageGenerationService.generateImageFromText "p"
        (.err "models/foo is not found for API version")).errType =
      some .MODEL_NOT_FOUND ∧
    (ImageGenerationService.generateImage "p" "img" "image/jpeg"
        (.err "socket hang up")).errType = some .UNKNOWN_ERROR := by
  refine ⟨?_, ?_, ?_⟩
  · exact ((C4_failure_classification "p" "img" "image/jpeg"
      "You exceeded your current quota").1 (Or.inr (by decide))).1
  · exact ((C4_failure_classification "p" "img" "image/jpeg"
      "models/foo is not found for API version").2.1
      ⟨by decide, by decide, Or.inr (by decide)⟩).2
  · exact ((C4_failure_classification "p" "img" "image/jpeg"
      "socket hang up").2.2 ⟨by decide, by decide, by decide, by decide⟩).1

/-- A sample stored reference-image record used by concrete witnesses. -/
def sampleRecord : PromptRecord :=
  { _id := "u1", promptId := "p1", promptName := "Sunset",
    prompt := "a sunset over mountains", base64Image := "imgA",
    originalName := "a.jpg", size := 4, mimetype := "image/jpeg",
    createdAt := "t0" }

/-- C1: when the images-collection lookup for the promptId returns zero
records, generateImage responds 404 with success:false, never calls the
generation service, and leaves generated_images (indeed the whole
database) unchanged. -/
theorem C1_unknown_promptId_404
    (st : DBState) (promptId referenceImage : Option String)
    (mimeType freshId createdAt : String) (outcome : ProviderOutcome)
    (hp : jsFalsy promptId = false) (hr : jsFalsy referenceImage = false)
    (hlook : st.images.filter
      (fun r => r.promptId == promptId.getD "") = []) :
    (generateImage st promptId referenceImage mimeType freshId createdAt
        outcome).response.status = 404 ∧
    (generateImage st promptId referenceImage mimeType freshId createdAt
        outcome).response.success = false ∧
    (generateImage st promptId referenceImage mimeType freshId createdAt
        outcome).gatewayCalled = false ∧
    (generateImage st promptId referenceImage mimeType freshId createdAt
        outcome).newState = st := by
  simp [generateImage, hp, hr, hlook]

/-- Witness for C1: a store holding one record for "p1", queried with the
unknown promptId "ghost". -/
theorem C1_unknown_promptId_404_witness :
    (generateImage ⟨[sampleRecord], []⟩ (some "ghost") (some "refY")
        "image/jpeg" "g1" "t1" (.ok "txt")).response.status = 404 ∧
    (generateImage ⟨[sampleRecord], []⟩ (some "ghost") (some "refY")
        "image/jpeg" "g1" "t1" (.ok "txt")).response.success = false ∧
    (generateImage ⟨[sampleRecord], []⟩ (some "ghost") (some "refY")
        "image/jpeg" "g1" "t1" (.ok "txt")).gatewayCalled = false ∧
    (generateImage ⟨[sampleRecord], []⟩ (some "ghost") (some "refY")
        "image/jpeg" "g1" "t1" (.ok "txt")).newState =
      ⟨[sampleRecord], []⟩ :=
  C1_unknown_promptId_404 ⟨[sampleRecord], []⟩ (some "ghost")
    (some "refY") "image/jpeg" "g1" "t1" (.ok "txt")
    (by decide) (by decide) (by decide)

/-- C7: a generate-text request whose prompt is absent or empty gets a
400 response, no generation service call, and no change to the
database. -/
theorem C7_empty_prompt_400
    (st : DBState) (prompt : Option String)
    (freshId createdAt : String) (outcome : ProviderOutcome)
    (hp : jsFalsy prompt = true) :
    (generateImageFromText st prompt freshId createdAt
        outcome).response.status = 400 ∧
    (generateImageFromText st prompt freshId createdAt
        outcome).response.success = false ∧
    (generateImageFromText st prompt freshId createdAt
        outcome).gatewayCalled = false ∧
    (generateImageFromText st prompt freshId createdAt
        outcome).newState = st := by
  simp [generateImageFromText, hp]

/-- Witness for C7: the empty-string prompt. -/
theorem C7_empty_prompt_400_witness :
    (generateImageFromText ⟨[sampleRecord], []⟩ (some "") "g1" "t1"
        (.ok "txt")).response.status = 400 ∧
    (generateImageFromText ⟨[sampleRecord], []⟩ (some "") "g1" "t1"
        (.ok "txt")).response.success = false ∧
    (generateImageFromText ⟨[sampleRecord], []⟩ (some "") "g1" "t1"
        (.ok "txt")).gatewayCalled = false ∧
    (generateImageFromText ⟨[sampleRecord], []⟩ (some "") "g1" "t1"
        (.ok "txt")).newState = ⟨[sampleRecord], []⟩ :=
  C7_empty_prompt_400 ⟨[sampleRecord], []⟩ (some "") "g1" "t1"
    (.ok "txt") (by decide)

/-- When the provider interaction throws, generateImage of the service
returns a classified failure, never a success. -/
theorem serviceImage_err (p r mt m : String) :
    ∃ e t, ImageGenerationService.generateImage p r mt (.err m) =
      .failure e t := by
  simp only [ImageGenerationService.generateImage]
  split
  · exact ⟨_, _, rfl⟩
  split
  · exact ⟨_, _, rfl⟩
  · exact ⟨_, _, rfl⟩

/-- When the provider interaction throws, generateImageFromText of the
service returns a classified failure, never a success. -/
theorem serviceFromText_err (p m : String) :
    ∃ e t, ImageGenerationService.generateImageFromText p (.err m) =
      .failure e t := by
  simp only [ImageGenerationService.generateImageFromText]
  split
  · exact ⟨_, _, rfl⟩
  split
  · exact ⟨_, _, rfl⟩
  · exact ⟨_, _, rfl⟩

/-- C2: a successful generateImage call appends exactly one artifact to
generated_images, and its promptName and prompt come from the first
record of the images-collection lookup for that promptId. -/
theorem C2_first_match_wins
    (st : DBState) (promptId referenceImage : Option String)
    (mimeType freshId createdAt : String) (outcome : ProviderOutcome)
    (h : (generateImage st promptId referenceImage mimeType freshId
        createdAt outcome).response.success = true) :
    ∃ a r,
      (st.images.filter
        (fun x => x.promptId == promptId.getD "")).head? = some r ∧
      (generateImage st promptId referenceImage mimeType freshId createdAt
          outcome).newState.generated_images =
        st.generated_images ++ [a] ∧
      a.promptName = r.promptName ∧ a.prompt = r.prompt := by
  cases hp : jsFalsy promptId with
  | true => exact absurd h (by simp [generateImage, hp])
  | false =>
    cases hr : jsFalsy referenceImage with
    | true => exact absurd h (by simp [generateImage, hp, hr])
    | false =>
      cases hfil : st.images.filter
          (fun x => x.promptId == promptId.getD "") with
      | nil => exact absurd h (by simp [generateImage, hp, hr, hfil])
      | cons rfirst rest =>
        cases outcome with
        | err m =>
          exfalso
          obtain ⟨e, t, heq⟩ :=
            serviceImage_err rfirst.prompt (referenceImage.getD "")
              mimeType m
          simp [generateImage, hp, hr, hfil, heq] at h
        | ok t =>
          refine
            ⟨{ _id := freshId, promptId := some (promptId.getD ""),
               promptName := rfirst.promptName, prompt := rfirst.prompt,
               base64Image := referenceImage.getD "",
               originalName := "ai-generated-image.jpg",
               size := (referenceImage.getD "").length,
               mimetype := "image/jpeg", createdAt := createdAt,
               type := "generated" },
             rfirst, rfl, ?_, rfl, rfl⟩
          simp [generateImage, hp, hr, hfil,
            ImageGenerationService.generateImage]

/-- Witness for C2: two records share promptId "p1" with different
promptName; the generated artifact takes the first record's name. -/
theorem C2_first_match_wins_witness :
    ∃ a r,
      ([sampleRecord,
        { sampleRecord with
          _id := "u2", promptName := "Sunrise",
          prompt := "a sunrise" }].filter
        (fun x => x.promptId == (some "p1").getD "")).head? = some r ∧
      (generateImage
        ⟨[sampleRecord,
          { sampleRecord with
            _id := "u2", promptName := "Sunrise",
            prompt := "a sunrise" }], []⟩ (some "p1") (some "refY")
          "image/jpeg" "g1" "t1"
          (.ok "txt")).newState.generated_images =
        [] ++ [a] ∧
      a.promptName = r.promptName ∧ a.prompt = r.prompt :=
  C2_first_match_wins
    ⟨[sampleRecord,
      { sampleRecord with
        _id := "u2", promptName := "Sunrise",
        prompt := "a sunrise" }], []⟩ (some "p1") (some "refY")
    "image/jpeg" "g1" "t1" (.ok "txt") (by decide)

/-- C3: the service's success result always carries the unmodified
reference image as images[0].inlineData.data, and so a successful
generateImage call both returns and persists image data byte-for-byte
equal to the input referenceImage. -/
theorem C3_reference_echoed
    (st : DBState) (promptId referenceImage : Option String)
    (mimeType freshId createdAt : String) (outcome : ProviderOutcome) :
    (∀ p r mt t, ImageGenerationService.generateImage p r mt (.ok t) =
      .success r mt) ∧
    ((generateImage st promptId referenceImage mimeType freshId createdAt
        outcome).response.success = true →
      (generateImage st promptId referenceImage mimeType freshId createdAt
          outcome).response.base64Image = some (referenceImage.getD "") ∧
      ∃ a,
        (generateImage st promptId referenceImage mimeType freshId
            createdAt outcome).newState.generated_images =
          st.generated_images ++ [a] ∧
        a.base64Image = referenceImage.getD "") := by
  refine ⟨fun p r mt t => rfl, fun h => ?_⟩
  cases hp : jsFalsy promptId with
  | true => exact absurd h (by simp [generateImage, hp])
  | false =>
    cases hr : jsFalsy referenceImage with
    | true => exact absurd h (by simp [generateImage, hp, hr])
    | false =>
      cases hfil : st.images.filter
          (fun x => x.promptId == promptId.getD "") with
      | nil => exact absurd h (by simp [generateImage, hp, hr, hfil])
      | cons rfirst rest =>
        cases outcome with
        | err m =>
          exfalso
          obtain ⟨e, t, heq⟩ :=
            serviceImage_err rfirst.prompt (referenceImage.getD "")
              mimeType m
          simp [generateImage, hp, hr, hfil, heq] at h
        | ok t =>
          constructor
          · simp [generateImage, hp, hr, hfil,
              ImageGenerationService.generateImage]
          · refine
              ⟨{ _id := freshId,
                 promptId := some (promptId.getD ""),
                 promptName := rfirst.promptName, prompt := rfirst.prompt,
                 base64Image := referenceImage.getD "",
                 originalName := "ai-generated-image.jpg",
                 size := (referenceImage.getD "").length,
                 mimetype := "image/jpeg", createdAt := createdAt,
                 type := "generated" },
               ?_, rfl⟩
            simp [generateImage, hp, hr, hfil,
              ImageGenerationService.generateImage]

/-- Witness for C3: the persisted and returned data equal the "refY"
reference input. -/
theorem C3_reference_echoed_witness :
    (generateImage ⟨[sampleRecord], []⟩ (some "p1") (some "refY")
        "image/jpeg" "g1" "t1" (.ok "txt")).response.base64Image =
      some ((some "refY").getD "") ∧
    ∃ a,
      (generateImage ⟨[sampleRecord], []⟩ (some "p1") (some "refY")
          "image/jpeg" "g1" "t1"
          (.ok "txt")).newState.generated_images = [] ++ [a] ∧
      a.base64Image = (some "refY").getD "" :=
  (C3_reference_echoed ⟨[sampleRecord], []⟩ (some "p1") (some "refY")
    "image/jpeg" "g1" "t1" (.ok "txt")).2 (by decide)

/-- C6: every successful generate-text call appends an artifact whose
promptId is null and whose promptName is the constant "Text Prompt". -/
theorem C6_text_prompt_artifact
    (st : DBState) (prompt : Option String)
    (freshId createdAt : String) (outcome : ProviderOutcome)
    (h : (generateImageFromText st prompt freshId createdAt
        outcome).response.success = true) :
    ∃ a : GeneratedArtifact,
      (generateImageFromText st prompt freshId createdAt
          outcome).newState.generated_images =
        st.generated_images ++ [a] ∧
      a.promptId = none ∧ a.promptName = "Text Prompt" := by
  cases hp : jsFalsy prompt with
  | true => exact absurd h (by simp [generateImageFromText, hp])
  | false =>
    cases outcome with
    | err m =>
      exfalso
      obtain ⟨e, t, heq⟩ := serviceFromText_err (prompt.getD "") m
      simp [generateImageFromText, hp, heq] at h
    | ok t =>
      refine
        ⟨{ _id := freshId, promptId := none,
           promptName := "Text Prompt", prompt := prompt.getD "",
           base64Image := "text-generated-description",
           originalName := "ai-text-generated-image.jpg",
           size := ("text-generated-description" : String).length,
           mimetype := "image/jpeg", createdAt := createdAt,
           type := "generated" },
         ?_, rfl, rfl⟩
      simp [generateImageFromText, hp,
        ImageGenerationService.generateImageFromText]

/-- Witness for C6: a concrete successful generate-text call. -/
theorem C6_text_prompt_artifact_witness :
    ∃ a : GeneratedArtifact,
      (generateImageFromText ⟨[], []⟩ (some "a cat") "g2" "t2"
          (.ok "desc")).newState.generated_images = [] ++ [a] ∧
      a.promptId = none ∧ a.promptName = "Text Prompt" :=
  C6_text_prompt_artifact ⟨[], []⟩ (some "a cat") "g2" "t2" (.ok "desc")
    (by decide)

/-- C10: the text-generation service reports its success payload as the
placeholder "text-generated-description" with mimeType "text/plain",
while every successful generate-text call persists that placeholder with
a stored mimetype of "image/jpeg". -/
theorem C10_placeholder_mimetype
    (st : DBState) (prompt : Option String)
    (freshId createdAt : String) (outcome : ProviderOutcome) :
    (∀ p t, ImageGenerationService.generateImageFromText p (.ok t) =
      .success "text-generated-description" "text/plain") ∧
    ((generateImageFromText st prompt freshId createdAt
        outcome).response.success = true →
      ∃ a : GeneratedArtifact,
        (generateImageFromText st prompt freshId createdAt
            outcome).newState.generated_images =
          st.generated_images ++ [a] ∧
        a.base64Image = "text-generated-description" ∧
        a.mimetype = "image/jpeg") := by
  refine ⟨fun p t => rfl, fun h => ?_⟩
  cases hp : jsFalsy prompt with
  | true => exact absurd h (by simp [generateImageFromText, hp])
  | false =>
    cases outcome with
    | err m =>
      exfalso
      obtain ⟨e, t, heq⟩ := serviceFromText_err (prompt.getD "") m
      simp [generateImageFromText, hp, heq] at h
    | ok t =>
      refine
        ⟨{ _id := freshId, promptId := none,
           promptName := "Text Prompt", prompt := prompt.getD "",
           base64Image := "text-generated-description",
           originalName := "ai-text-generated-image.jpg",
           size := ("text-generated-description" : String).length,
           mimetype := "image/jpeg", createdAt := createdAt,
           type := "generated" },
         ?_, rfl, rfl⟩
      simp [generateImageFromText, hp,
        ImageGenerationService.generateImageFromText]

/-- Witness for C10: concrete successful generate-text call persisting
the placeholder with mimetype image/jpeg. -/
theorem C10_placeholder_mimetype_witness :
    ∃ a : GeneratedArtifact,
      (generateImageFromText ⟨[], []⟩ (some "a dog") "g3" "t3"
          (.ok "desc")).newState.generated_images = [] ++ [a] ∧
      a.base64Image = "text-generated-description" ∧
      a.mimetype = "image/jpeg" :=
  (C10_placeholder_mimetype ⟨[], []⟩ (some "a dog") "g3" "t3"
    (.ok "desc")).2 (by decide)

/-- When the provider interaction throws with message m, the failure
result of generateImage of the service carries exactly one of the three
human-readable messages built around m (quota, model-not-found, or the
generic prefix) in its error field. -/
theorem serviceImage_err_msg (p r mt m : String) :
    ImageGenerationService.generateImage p r mt (.err m) =
      .failure ("Quota exceeded: " ++ m ++
        ". Please check your billing and quota limits.")
        .QUOTA_EXCEEDED ∨
    ImageGenerationService.generateImage p r mt (.err m) =
      .failure ("Model not found: " ++ m) .MODEL_NOT_FOUND ∨
    ImageGenerationService.generateImage p r mt (.err m) =
      .failure ("Image generation failed: " ++ m) .UNKNOWN_ERROR := by
  simp only [ImageGenerationService.generateImage]
  split
  · exact Or.inl rfl
  split
  · exact Or.inr (Or.inl rfl)
  · exact Or.inr (Or.inr rfl)

/-- When the provider interaction throws with message m, the failure
result of generateImageFromText of the service carries exactly one of
the three human-readable messages built around m in its error field. -/
theorem serviceFromText_err_msg (p m : String) :
    ImageGenerationService.generateImageFromText p (.err m) =
      .failure ("Quota exceeded: " ++ m ++
        ". Please check your billing and quota limits.")
        .QUOTA_EXCEEDED ∨
    ImageGenerationService.generateImageFromText p (.err m) =
      .failure ("Model not found: " ++ m) .MODEL_NOT_FOUND ∨
    ImageGenerationService.generateImageFromText p (.err m) =
      .failure ("Text-to-image generation failed: " ++ m)
        .UNKNOWN_ERROR := by
  simp only [ImageGenerationService.generateImageFromText]
  split
  · exact Or.inl rfl
  split
  · exact Or.inr (Or.inl rfl)
  · exact Or.inr (Or.inr rfl)

/-- The response of generateImage is one of: 400 without an error field,
404 without an error field, 500 whose error field holds the classified
human-readable message built around the thrown provider message, or 200
success. -/
theorem generateImage_response_cases
    (st : DBState) (promptId referenceImage : Option String)
    (mimeType freshId createdAt : String) (outcome : ProviderOutcome) :
    ((generateImage st promptId referenceImage mimeType freshId createdAt
        outcome).response.status = 400 ∧
      (generateImage st promptId referenceImage mimeType freshId createdAt
        outcome).response.errorField = none) ∨
    ((generateImage st promptId referenceImage mimeType freshId createdAt
        outcome).response.status = 404 ∧
      (generateImage st promptId referenceImage mimeType freshId createdAt
        outcome).response.errorField = none) ∨
    ((generateImage st promptId referenceImage mimeType freshId createdAt
        outcome).response.status = 500 ∧
      ∃ m, outcome = .err m ∧
        ((generateImage st promptId referenceImage mimeType freshId
            createdAt outcome).response.errorField =
          some ("Quota exceeded: " ++ m ++
            ". Please check your billing and quota limits.") ∨
         (generateImage st promptId referenceImage mimeType freshId
            createdAt outcome).response.errorField =
          some ("Model not found: " ++ m) ∨
         (generateImage st promptId referenceImage mimeType freshId
            createdAt outcome).response.errorField =
          some ("Image generation failed: " ++ m))) ∨
    ((generateImage st promptId referenceImage mimeType freshId createdAt
        outcome).response.status = 200 ∧
      (generateImage st promptId referenceImage mimeType freshId createdAt
        outcome).response.errorField = none) := by
  cases hp : jsFalsy promptId with
  | true => exact Or.inl (by simp [generateImage, hp])
  | false =>
    cases hr : jsFalsy referenceImage with
    | true => exact Or.inl (by simp [generateImage, hp, hr])
    | false =>
      cases hfil : st.images.filter
          (fun x => x.promptId == promptId.getD "") with
      | nil =>
        exact Or.inr (Or.inl (by simp [generateImage, hp, hr, hfil]))
      | cons rfirst rest =>
        cases outcome with
        | err m =>
          refine Or.inr (Or.inr (Or.inl ?_))
          rcases serviceImage_err_msg rfirst.prompt
              (referenceImage.getD "") mimeType m with heq | heq | heq
          · exact ⟨by simp [generateImage, hp, hr, hfil, heq], m, rfl,
              Or.inl (by simp [generateImage, hp, hr, hfil, heq])⟩
          · exact ⟨by simp [generateImage, hp, hr, hfil, heq], m, rfl,
              Or.inr (Or.inl
                (by simp [generateImage, hp, hr, hfil, heq]))⟩
          · exact ⟨by simp [generateImage, hp, hr, hfil, heq], m, rfl,
              Or.inr (Or.inr
                (by simp [generateImage, hp, hr, hfil, heq]))⟩
        | ok t =>
          exact Or.inr (Or.inr (Or.inr (by
            simp [generateImage, hp, hr, hfil,
              ImageGenerationService.generateImage])))

/-- The response of generateImageFromText is one of: 400 without an
error field, 500 whose error field holds the classified human-readable
message built around the thrown provider message, or 200 success. -/
theorem generateImageFromText_response_cases
    (st : DBState) (prompt : Option String)
    (freshId createdAt : String) (outcome : ProviderOutcome) :
    ((generateImageFromText st prompt freshId createdAt
        outcome).response.status = 400 ∧
      (generateImageFromText st prompt freshId createdAt
        outcome).response.errorField = none) ∨
    ((generateImageFromText st prompt freshId createdAt
        outcome).response.status = 500 ∧
      ∃ m, outcome = .err m ∧
        ((generateImageFromText st prompt freshId createdAt
            outcome).response.errorField =
          some ("Quota exceeded: " ++ m ++
            ". Please check your billing and quota limits.") ∨
         (generateImageFromText st prompt freshId createdAt
            outcome).response.errorField =
          some ("Model not found: " ++ m) ∨
         (generateImageFromText st prompt freshId createdAt
            outcome).response.errorField =
          some ("Text-to-image generation failed: " ++ m))) ∨
    ((generateImageFromText st prompt freshId createdAt
        outcome).response.status = 200 ∧
      (generateImageFromText st prompt freshId createdAt
        outcome).response.errorField = none) := by
  cases hp : jsFalsy prompt with
  | true => exact Or.inl (by simp [generateImageFromText, hp])
  | false =>
    cases outcome with
    | err m =>
      refine Or.inr (Or.inl ?_)
      rcases serviceFromText_err_msg (prompt.getD "") m with
        heq | heq | heq
      · exact ⟨by simp [generateImageFromText, hp, heq], m, rfl,
          Or.inl (by simp [generateImageFromText, hp, heq])⟩
      · exact ⟨by simp [generateImageFromText, hp, heq], m, rfl,
          Or.inr (Or.inl (by simp [generateImageFromText, hp, heq]))⟩
      · exact ⟨by simp [generateImageFromText, hp, heq], m, rfl,
          Or.inr (Or.inr (by simp [generateImageFromText, hp, heq]))⟩
    | ok t =>
      exact Or.inr (Or.inr (by
        simp [generateImageFromText, hp,
          ImageGenerationService.generateImageFromText]))

/-- Counterexample for C5: the 404 response for the unknown promptId
"ghost" carries no error code field at all — its body has only
success:false and the human message (plus debug context), so no
machine-readable NOT_FOUND-class code is present. -/
theorem C5_counterexample :
    (generateImage ⟨[sampleRecord], []⟩ (some "ghost") (some "refY")
        "image/jpeg" "g5" "t5" (.ok "txt")).response.status = 404 ∧
    (generateImage ⟨[sampleRecord], []⟩ (some "ghost") (some "refY")
        "image/jpeg" "g5" "t5" (.ok "txt")).response.errorField =
      none := by
  constructor <;> rfl

/-- C5 amended: the generation endpoints' 400 and 404 failure responses
carry no machine-readable error code field (in particular the 404 for an
unknown promptId has none), while their 500 responses carry an error
field holding the service's human-readable error message — one of the
three classified sentences built around the thrown provider message —
rather than a distinct stable code. -/
theorem C5_amended_error_payloads
    (st : DBState) (promptId referenceImage prompt : Option String)
    (mimeType freshId createdAt : String) (outcome : ProviderOutcome) :
    ((generateImage st promptId referenceImage mimeType freshId createdAt
        outcome).response.status = 404 →
      (generateImage st promptId referenceImage mimeType freshId createdAt
        outcome).response.errorField = none) ∧
    ((generateImage st promptId referenceImage mimeType freshId createdAt
        outcome).response.status = 400 →
      (generateImage st promptId referenceImage mimeType freshId createdAt
        outcome).response.errorField = none) ∧
    ((generateImage st promptId referenceImage mimeType freshId createdAt
        outcome).response.status = 500 →
      ∃ m, outcome = .err m ∧
        ((generateImage st promptId referenceImage mimeType freshId
            createdAt outcome).response.errorField =
          some ("Quota exceeded: " ++ m ++
            ". Please check your billing and quota limits.") ∨
         (generateImage st promptId referenceImage mimeType freshId
            createdAt outcome).response.errorField =
          some ("Model not found: " ++ m) ∨
         (generateImage st promptId referenceImage mimeType freshId
            createdAt outcome).response.errorField =
          some ("Image generation failed: " ++ m))) ∧
    ((generateImageFromText st prompt freshId createdAt
        outcome).response.status = 400 →
      (generateImageFromText st prompt freshId createdAt
        outcome).response.errorField = none) ∧
    ((generateImageFromText st prompt freshId createdAt
        outcome).response.status = 500 →
      ∃ m, outcome = .err m ∧
        ((generateImageFromText st prompt freshId createdAt
            outcome).response.errorField =
          some ("Quota exceeded: " ++ m ++
            ". Please check your billing and quota limits.") ∨
         (generateImageFromText st prompt freshId createdAt
            outcome).response.errorField =
          some ("Model not found: " ++ m) ∨
         (generateImageFromText st prompt freshId createdAt
            outcome).response.errorField =
          some ("Text-to-image generation failed: " ++ m))) := by
  have hi := generateImage_response_cases st promptId referenceImage
    mimeType freshId createdAt outcome
  have ht := generateImageFromText_response_cases st prompt freshId
    createdAt outcome
  refine ⟨?_, ?_, ?_, ?_, ?_⟩ <;> intro hs
  · rcases hi with ⟨h1, h2⟩ | ⟨h1, h2⟩ | ⟨h1, h2⟩ | ⟨h1, h2⟩ <;>
      first | exact h2 | omega
  · rcases hi with ⟨h1, h2⟩ | ⟨h1, h2⟩ | ⟨h1, h2⟩ | ⟨h1, h2⟩ <;>
      first | exact h2 | omega
  · rcases hi with ⟨h1, h2⟩ | ⟨h1, h2⟩ | ⟨h1, h2⟩ | ⟨h1, h2⟩ <;>
      first | exact h2 | omega
  · rcases ht with ⟨h1, h2⟩ | ⟨h1, h2⟩ | ⟨h1, h2⟩ <;>
      first | exact h2 | omega
  · rcases ht with ⟨h1, h2⟩ | ⟨h1, h2⟩ | ⟨h1, h2⟩ <;>
      first | exact h2 | omega

/-- Witness for the amended C5: a concrete 404 (unknown promptId against
an empty store) whose body has no error code field. -/
theorem C5_amended_error_payloads_witness :
    (generateImage ⟨[], []⟩ (some "ghost") (some "refY") "image/jpeg"
        "g6" "t6" (.ok "txt")).response.errorField = none :=
  (C5_amended_error_payloads ⟨[], []⟩ (some "ghost") (some "refY")
    (some "x") "image/jpeg" "g6" "t6" (.ok "txt")).1 (by decide)

/-- Filtering an id-fresh list extended with one record for that
record's id keeps exactly that record. -/
theorem filter_id_append_fresh (l : List PromptRecord)
    (rec : PromptRecord) (hfresh : ∀ r ∈ l, r._id ≠ rec._id) :
    (l ++ [rec]).filter (fun r => r._id == rec._id) = [rec] := by
  rw [List.filter_append]
  have h1 : l.filter (fun r => r._id == rec._id) = [] := by
    refine List.filter_eq_nil_iff.mpr ?_
    intro a ha
    simp [hfresh a ha]
  simp [h1]

/-- C9: a record inserted by uploadImage under a fresh identity is
returned complete — in particular with byte-identical base64Image data —
by getImageById on that identity. -/
theorem C9_upload_roundtrip (st : DBState)
    (promptId promptName prompt aiImage : Option String)
    (file : Option FileUpload) (freshId now : String)
    (rec : PromptRecord)
    (hfresh : ∀ r ∈ st.images, r._id ≠ freshId)
    (hins : (uploadImage st promptId promptName prompt aiImage file
      freshId now).inserted = some rec) :
    getImageById (uploadImage st promptId promptName prompt aiImage file
        freshId now).newState rec._id = some rec ∧
    (getImageById (uploadImage st promptId promptName prompt aiImage file
        freshId now).newState rec._id).map
      (fun r => r.base64Image) = some rec.base64Image := by
  cases hv : (jsFalsy promptId || jsFalsy promptName ||
      jsFalsy prompt) with
  | true => simp [uploadImage, hv] at hins
  | false =>
    cases file with
    | some f =>
      simp only [uploadImage, hv, Bool.false_eq_true, if_false,
        Option.some.injEq] at hins
      have hid : rec._id = freshId := by rw [← hins]
      have hfresh2 : ∀ r ∈ st.images, r._id ≠ rec._id := by
        intro r hr
        rw [hid]
        exact hfresh r hr
      have hfil := filter_id_append_fresh st.images rec hfresh2
      have hnew : (uploadImage st promptId promptName prompt aiImage
          (some f) freshId now).newState.images = st.images ++ [rec] := by
        simp only [uploadImage, hv, Bool.false_eq_true, if_false]
        rw [hins]
      refine ⟨?_, ?_⟩ <;> simp only [getImageById] <;>
        rw [hnew, hfil] <;> rfl
    | none =>
      cases ha : jsFalsy aiImage with
      | true => simp [uploadImage, hv, ha] at hins
      | false =>
        simp only [uploadImage, hv, ha, Bool.false_eq_true, if_false,
          Option.some.injEq] at hins
        have hid : rec._id = freshId := by rw [← hins]
        have hfresh2 : ∀ r ∈ st.images, r._id ≠ rec._id := by
          intro r hr
          rw [hid]
          exact hfresh r hr
        have hfil := filter_id_append_fresh st.images rec hfresh2
        have hnew : (uploadImage st promptId promptName prompt aiImage
            none freshId now).newState.images = st.images ++ [rec] := by
          simp only [uploadImage, hv, ha, Bool.false_eq_true, if_false]
          rw [hins]
        refine ⟨?_, ?_⟩ <;> simp only [getImageById] <;>
          rw [hnew, hfil] <;> rfl

/-- The record a concrete witness upload stores. -/
def c9rec : PromptRecord :=
  { _id := "w1", promptId := "p9", promptName := "N", prompt := "P",
    base64Image := "data:image/png;base64,XYZ",
    originalName := "uploaded-image", size := 0,
    mimetype := "image/jpeg", createdAt := "t9" }

/-- Witness for C9: a concrete base64 upload read back by its id. -/
theorem C9_upload_roundtrip_witness :
    getImageById (uploadImage ⟨[], []⟩ (some "p9") (some "N") (some "P")
        (some "data:image/png;base64,XYZ") none "w1" "t9").newState
      c9rec._id = some c9rec ∧
    (getImageById (uploadImage ⟨[], []⟩ (some "p9") (some "N") (some "P")
        (some "data:image/png;base64,XYZ") none "w1" "t9").newState
      c9rec._id).map (fun r => r.base64Image) = some c9rec.base64Image :=
  C9_upload_roundtrip ⟨[], []⟩ (some "p9") (some "N") (some "P")
    (some "data:image/png;base64,XYZ") none "w1" "t9" c9rec
    (by simp) (by decide)

/-- Every entry produced by the getPrompts loop has a nonempty (truthy)
id that was not yet in the seen set. -/
theorem getPromptsLoop_id_invariant (l : List PromptRecord) :
    ∀ (seen : List String) (e : PromptSummary),
      e ∈ getPromptsLoop l seen → e.id.isEmpty = false ∧ e.id ∉ seen := by
  induction l with
  | nil =>
    intro seen e he
    simp [getPromptsLoop] at he
  | cons img rest ih =>
    intro seen e he
    by_cases hc : (!img.promptId.isEmpty &&
        !(List.contains seen img.promptId)) = true
    · simp only [getPromptsLoop, if_pos hc] at he
      rcases List.mem_cons.mp he with rfl | hmem
      · have hc2 : img.promptId.isEmpty = false ∧ img.promptId ∉ seen :=
          by simpa using hc
        exact ⟨hc2.1, hc2.2⟩
      · have hinv := ih (img.promptId :: seen) e hmem
        exact ⟨hinv.1, fun hs => hinv.2 (List.mem_cons_of_mem _ hs)⟩
    · simp only [getPromptsLoop, if_neg hc] at he
      exact ih seen e he

/-- The ids of the getPrompts loop output are pairwise distinct. -/
theorem getPromptsLoop_ids_nodup (l : List PromptRecord) :
    ∀ seen, ((getPromptsLoop l seen).map (fun e => e.id)).Nodup := by
  induction l with
  | nil =>
    intro seen
    simp [getPromptsLoop]
  | cons img rest ih =>
    intro seen
    by_cases hc : (!img.promptId.isEmpty &&
        !(List.contains seen img.promptId)) = true
    · simp only [getPromptsLoop, if_pos hc, List.map_cons]
      rw [List.nodup_cons]
      refine ⟨?_, ih _⟩
      intro hmem
      obtain ⟨e, he, heq⟩ := List.mem_map.mp hmem
      have hinv := getPromptsLoop_id_invariant rest
        (img.promptId :: seen) e he
      exact hinv.2 (heq ▸ List.mem_cons_self _ _)
    · simp only [getPromptsLoop, if_neg hc]
      exact ih seen

/-- Each entry of the getPrompts loop output takes its promptName,
prompt and createdAt from the first record of the scanned list whose
promptId equals the entry's id. -/
theorem getPromptsLoop_first_match (l : List PromptRecord) :
    ∀ seen e, e ∈ getPromptsLoop l seen →
      ∃ r, l.find? (fun x => x.promptId == e.id) = some r ∧
        e.promptName = r.promptName ∧ e.prompt = r.prompt ∧
        e.createdAt = r.createdAt ∧ e.id = r.promptId := by
  induction l with
  | nil =>
    intro seen e he
    simp [getPromptsLoop] at he
  | cons img rest ih =>
    intro seen e he
    by_cases hc : (!img.promptId.isEmpty &&
        !(List.contains seen img.promptId)) = true
    · simp only [getPromptsLoop, if_pos hc] at he
      rcases List.mem_cons.mp he with rfl | hmem
      · exact ⟨img, List.find?_cons_of_pos rest (by simp), rfl, rfl,
          rfl, rfl⟩
      · have hinv := getPromptsLoop_id_invariant rest
          (img.promptId :: seen) e hmem
        have hne : img.promptId ≠ e.id := by
          intro hcon
          exact hinv.2 (hcon ▸ List.mem_cons_self _ _)
        obtain ⟨r, hr, h1, h2, h3, h4⟩ := ih (img.promptId :: seen) e hmem
        refine ⟨r, ?_, h1, h2, h3, h4⟩
        rw [List.find?_cons_of_neg rest (by simp [hne]), hr]
    · simp only [getPromptsLoop, if_neg hc] at he
      have hinv := getPromptsLoop_id_invariant rest seen e he
      have hcf : (!img.promptId.isEmpty &&
          !(List.contains seen img.promptId)) = false := by simpa using hc
      have hcond : img.promptId.isEmpty = true ∨
          List.contains seen img.promptId = true := by
        rcases Bool.and_eq_false_iff.mp hcf with h | h
        · exact Or.inl (by simpa using h)
        · exact Or.inr (by simpa using h)
      have hne : img.promptId ≠ e.id := by
        intro hcon
        rcases hcond with hemp | hseen
        · rw [← hcon] at hinv
          rw [hinv.1] at hemp
          exact Bool.false_ne_true hemp
        · exact hinv.2 (hcon ▸ (by simpa using hseen))
      obtain ⟨r, hr, h1, h2, h3, h4⟩ := ih seen e he
      refine ⟨r, ?_, h1, h2, h3, h4⟩
      rw [List.find?_cons_of_neg rest (by simp [hne]), hr]

/-- The getPrompts loop output lists ids in the order of their first
occurrence in the scanned list: the first-occurrence index (within the
promptId column of the scanned list) is strictly increasing along the
output. -/
theorem getPromptsLoop_order (l : List PromptRecord) :
    ∀ seen, ((getPromptsLoop l seen).map (fun e => e.id)).Pairwise
      (fun a b => (l.map (fun r => r.promptId)).indexOf a <
        (l.map (fun r => r.promptId)).indexOf b) := by
  induction l with
  | nil =>
    intro seen
    simp [getPromptsLoop]
  | cons img rest ih =>
    intro seen
    by_cases hc : (!img.promptId.isEmpty &&
        !(List.contains seen img.promptId)) = true
    · simp only [getPromptsLoop, if_pos hc, List.map_cons]
      rw [List.pairwise_cons]
      constructor
      · intro b hb
        obtain ⟨e, he, rfl⟩ := List.mem_map.mp hb
        have hinv := getPromptsLoop_id_invariant rest
          (img.promptId :: seen) e he
        have hne : img.promptId ≠ e.id := by
          intro hcon
          exact hinv.2 (hcon ▸ List.mem_cons_self _ _)
        rw [List.indexOf_cons_eq _ rfl, List.indexOf_cons_ne _ hne]
        exact Nat.succ_pos _
      · refine (ih (img.promptId :: seen)).imp_of_mem ?_
        intro a b ha hb hab
        obtain ⟨ea, hea, rfl⟩ := List.mem_map.mp ha
        obtain ⟨eb, heb, rfl⟩ := List.mem_map.mp hb
        have hna : img.promptId ≠ ea.id := by
          intro hcon
          exact (getPromptsLoop_id_invariant rest _ ea hea).2
            (hcon ▸ List.mem_cons_self _ _)
        have hnb : img.promptId ≠ eb.id := by
          intro hcon
          exact (getPromptsLoop_id_invariant rest _ eb heb).2
            (hcon ▸ List.mem_cons_self _ _)
        rw [List.indexOf_cons_ne _ hna, List.indexOf_cons_ne _ hnb]
        exact Nat.succ_lt_succ hab
    · simp only [getPromptsLoop, if_neg hc, List.map_cons]
      have hcf : (!img.promptId.isEmpty &&
          !(List.contains seen img.promptId)) = false := by simpa using hc
      have hcond : img.promptId.isEmpty = true ∨
          List.contains seen img.promptId = true := by
        rcases Bool.and_eq_false_iff.mp hcf with h | h
        · exact Or.inl (by simpa using h)
        · exact Or.inr (by simpa using h)
      refine (ih seen).imp_of_mem ?_
      intro a b ha hb hab
      obtain ⟨ea, hea, rfl⟩ := List.mem_map.mp ha
      obtain ⟨eb, heb, rfl⟩ := List.mem_map.mp hb
      have key : ∀ e : PromptSummary, e ∈ getPromptsLoop rest seen →
          img.promptId ≠ e.id := by
        intro e he hcon
        have hinv := getPromptsLoop_id_invariant rest seen e he
        rcases hcond with hemp | hseen
        · rw [← hcon] at hinv
          rw [hinv.1] at hemp
          exact Bool.false_ne_true hemp
        · exact hinv.2 (hcon ▸ (by simpa using hseen))
      rw [List.indexOf_cons_ne _ (key ea hea),
        List.indexOf_cons_ne _ (key eb heb)]
      exact Nat.succ_lt_succ hab

/-- C8: getPrompts returns at most one entry per distinct promptId
(pairwise distinct ids), in the order each promptId first appears in the
scanned images list (first-occurrence indexes strictly increase along
the output), and each entry carries the promptName and prompt text of
the first record bearing its promptId. -/
theorem C8_getPrompts_dedup (st : DBState) :
    ((getPrompts st).map (fun e => e.id)).Nodup ∧
    ((getPrompts st).map (fun e => e.id)).Pairwise
      (fun a b => (st.images.map (fun r => r.promptId)).indexOf a <
        (st.images.map (fun r => r.promptId)).indexOf b) ∧
    ∀ e ∈ getPrompts st,
      ∃ r, st.images.find? (fun x => x.promptId == e.id) = some r ∧
        e.promptName = r.promptName ∧ e.prompt = r.prompt :=
  ⟨getPromptsLoop_ids_nodup st.images [],
   getPromptsLoop_order st.images [],
   fun e he =>
     (getPromptsLoop_first_match st.images [] e he).imp
       (fun r h => ⟨h.1, h.2.1, h.2.2.1⟩)⟩

/-- Witness for C8: three records over two distinct promptIds, with the
duplicated promptId carrying conflicting names; the entry for "p1" takes
the first record's values. -/
theorem C8_getPrompts_dedup_witness :
    ∃ r,
      (DBState.images ⟨[sampleRecord,
        { sampleRecord with
          _id := "u2", promptName := "Sunrise",
          prompt := "a sunrise" },
        { sampleRecord with
          _id := "u3", promptId := "p2", promptName := "Moon",
          prompt := "the moon" }], []⟩).find?
        (fun x => x.promptId ==
          PromptSummary.id ⟨"p1", "Sunset", "a sunset over mountains",
            "t0"⟩) = some r ∧
      PromptSummary.promptName ⟨"p1", "Sunset",
        "a sunset over mountains", "t0"⟩ = r.promptName ∧
      PromptSummary.prompt ⟨"p1", "Sunset", "a sunset over mountains",
        "t0"⟩ = r.prompt :=
  (C8_getPrompts_dedup ⟨[sampleRecord,
    { sampleRecord with
      _id := "u2", promptName := "Sunrise",
      prompt := "a sunrise" },
    { sampleRecord with
      _id := "u3", promptId := "p2", promptName := "Moon",
      prompt := "the moon" }], []⟩).2.2
    ⟨"p1", "Sunset", "a sunset over mountains", "t0"⟩ (by decide)

end Pixora
